import Mathlib

/-!
Verification of the MoCast screencast-overlay add-on (`msc_events.py`,
`msc_presets.py`, `msc_translation.py`, `msc_ui.py`).

The Python modules are shallowly embedded: wall-clock times (Python `time()`)
are rationals, pixel coordinates are integers, Blender's translated strings
are produced by an arbitrary translator function `tr` standing for the
module-level `_` helper, and the module-global `MSCState` class is an explicit
state record threaded through each operation.  Host-side effects (operator
invocation, `tag_redraw`, reporting) have no bearing on the verified state
and are noted in the doc comments of the definitions that perform them.
-/

/-- `InputEvent` from `msc_events.py`: one transient overlay text line and the
time it was appended. -/
structure InputEvent where
  text : String
  t0 : ℚ
deriving Repr, DecidableEq

/-- A 4-component color as stored by the size-4 `FloatVectorProperty` fields of
`MSC_Settings` in `msc_ui.py`. -/
structure Color4 where
  r : ℚ
  g : ℚ
  b : ℚ
  a : ℚ
deriving Repr, DecidableEq

/-- `MSC_Settings` from `msc_ui.py`: the add-on's property group.  Bool, int,
float, string and enum properties become `Bool`, `ℤ`, `ℚ`, `String`
(enum values are their identifier strings); size-4 color vectors become
`Color4`. -/
structure Settings where
  ui_show_advanced : Bool
  show_title : Bool
  title_text : String
  title_icon_mode : String
  title_builtin_icon : String
  title_icon_path : String
  title_icon_auto : Bool
  title_icon_size : ℤ
  title_icon_pad : ℤ
  title_font_size : ℤ
  title_text_color : Color4
  font_size : ℤ
  bg_color : Color4
  bg_opacity : ℚ
  text_color : Color4
  corner_radius : ℤ
  position : String
  offset_x : ℤ
  offset_y : ℤ
  history_count : ℤ
  fade_seconds : ℚ
  show_keys : Bool
  show_mouse : Bool
  show_modifiers : Bool
  show_idle_hint : Bool
  idle_hint_text : String
  show_transform_axis : Bool
  drag_enable : Bool
  drag_requires_shift : Bool
  show_mouse_glyph : Bool
  mouse_glyph_size : ℤ
  mouse_sidecar_gap : ℤ
  mouse_hide_when_idle : Bool
  mirror_mouse_lr : Bool
  mouse_use_custom_body : Bool
  mouse_body_color : Color4
  mouse_outline_shade : ℤ
  mouse_show_tail : Bool
  limit_one_per_screen : Bool
  active_preset : String
deriving Repr, DecidableEq

/-- The module-global `MSCState` class of `msc_events.py`, as an explicit state
record.  Python's `Set[str]` keeps a duplicate-free `List String`; dicts keep
association lists; `bpy.types.Area` references and draw-handler handles are
abstracted to natural-number identities. -/
structure MSCState where
  handler : Option ℕ
  running : Bool
  events : List InputEvent
  box_rect : Option (ℤ × ℤ × ℤ × ℤ)
  dragging : Bool
  drag_dx : ℤ
  drag_dy : ℤ
  transform_active : Bool
  transform_kind : Option String
  transform_axis : Option String
  buttons_down : List String
  button_times : List (String × ℚ)
  suppress_buttons_until_mouseup : Bool
  wheel_active_until : ℚ
  mod_times : List (String × ℚ)
  scroll_dir : Option String
  scroll_count : ℕ
  scroll_last_t : ℚ
  active_area : Option ℕ
  current_locale : Option String
deriving Repr, DecidableEq

/-- `WHEEL_ACTIVE_MS` constant of `msc_events.py`. -/
def WHEEL_ACTIVE_MS : ℚ := 80

/-- `SCROLL_GROUP_MS` constant of `msc_events.py`. -/
def SCROLL_GROUP_MS : ℚ := 80

/-- `_REDRAW_MIN_INTERVAL` constant of `msc_events.py` (seconds). -/
def _REDRAW_MIN_INTERVAL : ℚ := 0.05

/-- `MSCState.STUCK_TIMEOUT` class attribute of `msc_events.py` (seconds). -/
def MSCState.STUCK_TIMEOUT : ℚ := 0.6

/-- `_resolve_position` from `msc_events.py`: anchor the overlay box of size
`(bw, bh)` inside the region of size `(rw, rh)` according to the position
enum and offsets in `s`, then clamp to a 10-pixel margin.  Python's floor
division `//` is `Int.fdiv`. -/
def _resolve_position (rw rh bw bh : ℤ) (s : Settings) : ℤ × ℤ :=
  let pos := s.position
  let ox := s.offset_x
  let oy := s.offset_y
  let margin : ℤ := 10
  let bx0 : ℤ :=
    if pos.endsWith "_LEFT" then margin + ox
    else if pos.endsWith "_CENTER" then (rw - bw).fdiv 2 + ox
    else (rw - bw) - margin - ox
  let by0 : ℤ :=
    if pos.startsWith "TOP_" then (rh - bh) - margin - oy
    else if pos.startsWith "MIDDLE_" then (rh - bh).fdiv 2 + oy
    else margin + oy
  (max margin (min (rw - bw - margin) bx0), max margin (min (rh - bh - margin) by0))

/-- A concrete settings value (the RNA defaults of `MSC_Settings`), used to
instantiate witnesses. -/
def defaultSettings : Settings where
  ui_show_advanced := false
  show_title := true
  title_text := "MoCast"
  title_icon_mode := "DEFAULT"
  title_builtin_icon := "BEACON"
  title_icon_path := ""
  title_icon_auto := true
  title_icon_size := 56
  title_icon_pad := 6
  title_font_size := 28
  title_text_color := ⟨73/1000, 68/100, 1, 1⟩
  font_size := 16
  bg_color := ⟨61/100, 73/100, 79/100, 1⟩
  bg_opacity := 35/100
  text_color := ⟨1, 1, 1, 1⟩
  corner_radius := 8
  position := "BOTTOM_LEFT"
  offset_x := 64
  offset_y := 77
  history_count := 4
  fade_seconds := 3
  show_keys := true
  show_mouse := true
  show_modifiers := true
  show_idle_hint := true
  idle_hint_text := "Momentum Screencast Overlay"
  show_transform_axis := true
  drag_enable := true
  drag_requires_shift := true
  show_mouse_glyph := true
  mouse_glyph_size := 46
  mouse_sidecar_gap := 14
  mouse_hide_when_idle := false
  mirror_mouse_lr := false
  mouse_use_custom_body := true
  mouse_body_color := ⟨13/100, 66/100, 88/100, 1⟩
  mouse_outline_shade := 1
  mouse_show_tail := true
  limit_one_per_screen := true
  active_preset := "Default"

/-- Concrete box width for witness statements. -/
def bw0 : ℤ := 60

/-- Concrete box height for witness statements. -/
def bh0 : ℤ := 40

/-- One pass of the throttled-redraw check at the end of
`MSC_OT_modal_capture.modal` in `msc_events.py`: returns whether the VIEW_3D
areas are tagged for redraw on this call, and the new value of the module
global `_last_redraw_ts`. -/
def _redraw_step (now2 last_ts : ℚ) : Bool × ℚ :=
  if _REDRAW_MIN_INTERVAL ≤ now2 - last_ts then (true, now2) else (false, last_ts)

/-- Iterate `_redraw_step` over the call times of a whole modal trace, starting
from `_last_redraw_ts = last_ts`, and collect the times at which a redraw was
actually tagged. -/
def redraw_tag_times (last_ts : ℚ) : List ℚ → List ℚ
  | [] => []
  | now2 :: rest =>
    if (_redraw_step now2 last_ts).1 then
      now2 :: redraw_tag_times (_redraw_step now2 last_ts).2 rest
    else
      redraw_tag_times (_redraw_step now2 last_ts).2 rest

/-- `_active_locale` from `msc_translation.py`.  The add-on preferences object
is abstracted to the value of its `lang_override` field (`none` when no
preferences object was found); `blender_locale` is
`bpy.app.translations.locale`, where `none` stands for Python `None` and the
empty string for an untranslated UI. -/
def _active_locale (lang_override : Option String) (blender_locale : Option String) :
    Option String :=
  match lang_override with
  | some override =>
    if override ≠ "" ∧ override ≠ "SYSTEM" then some override else blender_locale
  | none => blender_locale

/-- The language-change check at the top of `draw_callback_2d` in
`msc_events.py`: when the active locale differs from the recorded one, record
it and clear the event history. -/
def draw_locale_check (loc : Option String) (st : MSCState) : MSCState :=
  if st.current_locale ≠ loc then { st with current_locale := loc, events := [] } else st

/-- `MSC_OT_toggle.execute` from `msc_events.py`, acting on the module state.
`newHandle` abstracts the handle returned by
`bpy.types.SpaceView3D.draw_handler_add`; invoking the modal-capture operator,
`self.report` and per-area `tag_redraw` are host-side effects outside the
state. -/
def toggle_execute (newHandle : ℕ) (st : MSCState) : MSCState :=
  if ¬ st.running then
    { st with
      running := true, active_area := none,
      handler := (match st.handler with | none => some newHandle | some h => some h) }
  else
    { st with
      running := false, handler := none, events := [],
      transform_active := false, transform_kind := none, transform_axis := none,
      buttons_down := [], button_times := [],
      wheel_active_until := 0, scroll_dir := none, scroll_count := 0,
      scroll_last_t := 0, active_area := none }

/-- Whether button `b` is stale at time `now` according to the press-time dict
`bt` (the loop condition of the stuck-button watchdog in
`MSC_OT_modal_capture.modal`). -/
def staleButton (now : ℚ) (bt : List (String × ℚ)) (b : String) : Bool :=
  match bt.lookup b with
  | some t => decide (now - t > MSCState.STUCK_TIMEOUT)
  | none => false

/-- The stuck-button watchdog at the top of `MSC_OT_modal_capture.modal` in
`msc_events.py`: every button held longer than `STUCK_TIMEOUT` is deleted from
`button_times` and discarded from `buttons_down`. -/
def modal_watchdog (now : ℚ) (st : MSCState) : MSCState :=
  { st with
    buttons_down := st.buttons_down.filter (fun b => ! staleButton now st.button_times b),
    button_times := st.button_times.filter
      (fun p => ! decide (now - p.2 > MSCState.STUCK_TIMEOUT)) }

/-- A concrete running state with one stale and one fresh pressed button, used
to instantiate witnesses. -/
def runningState : MSCState where
  handler := some 0
  running := true
  events := [⟨"Left Click ↓", 0⟩]
  box_rect := none
  dragging := false
  drag_dx := 0
  drag_dy := 0
  transform_active := false
  transform_kind := none
  transform_axis := none
  buttons_down := ["LEFTMOUSE", "RIGHTMOUSE"]
  button_times := [("LEFTMOUSE", 0), ("RIGHTMOUSE", 1)]
  suppress_buttons_until_mouseup := false
  wheel_active_until := 0
  mod_times := []
  scroll_dir := some "UP"
  scroll_count := 2
  scroll_last_t := 0
  active_area := some 0
  current_locale := some "en_US"

/-- A concrete stopped state with no handler, used to instantiate witnesses. -/
def stoppedState : MSCState :=
  { runningState with
    running := false, handler := none }

/-- Python list slicing `l[i:]` for an arbitrary (possibly negative) start
index, as used by `MSCState.events[-history_count:]` in `gather_lines`. -/
def pySliceFrom {α : Type} (i : ℤ) (l : List α) : List α :=
  if i < 0 then l.drop (l.length - (-i).toNat) else l.drop (min l.length i.toNat)

/-- `gather_lines` from `msc_events.py`: drop events older than
`fade_seconds`, keep the texts of the last `history_count` of the survivors,
and substitute the idle hint when nothing remains.  Returns the pruned
`MSCState.events` list (the in-place mutation), the display lines, and the
`idle` flag. -/
def gather_lines (now : ℚ) (s : Settings) (events : List InputEvent) :
    List InputEvent × List String × Bool :=
  let ttl := s.fade_seconds
  let events2 := events.filter (fun ev => decide (now - ev.t0 ≤ ttl))
  let entries := pySliceFrom (-s.history_count) events2
  let lines := entries.map InputEvent.text
  if lines = [] ∧ s.show_idle_hint then
    (events2, [s.idle_hint_text], true)
  else
    (events2, lines, false)

/-- Concrete event history used to instantiate witnesses: two lines older than
the default fade window and one fresh line. -/
def eventsW : List InputEvent := [⟨"A", 0⟩, ⟨"B", 1⟩, ⟨"C", 5⟩]

/-- Python `str.isidentifier` on the first character, restricted to ASCII
(identifier-start characters are letters and the underscore). -/
def pyIsIdentStart (c : Char) : Bool := c.isAlpha || c = '_'

/-- Python `str.isidentifier` on later characters, restricted to ASCII
(identifier-continue characters are letters, digits and the underscore). -/
def pyIsIdentContinue (c : Char) : Bool := c.isAlphanum || c = '_'

/-- Python `str.isidentifier` on a character list: nonempty, an
identifier-start character followed by identifier-continue characters
(the ASCII fragment of the Unicode XID rules). -/
def pyIsIdentifierL : List Char → Bool
  | [] => false
  | c :: rest => pyIsIdentStart c && rest.all pyIsIdentContinue

/-- Python `str.isidentifier`, restricted to ASCII identifiers. -/
def pyIsIdentifier (x : String) : Bool := pyIsIdentifierL x.data

/-- Python `str.strip()` with no argument: remove leading and trailing
whitespace (modelled on ASCII whitespace characters). -/
def pyStrip (x : String) : String :=
  String.mk (((x.data.dropWhile Char.isWhitespace).reverse.dropWhile
    Char.isWhitespace).reverse)

/-- Python `name.replace(" ", "_")`: a single-character replacement is a map
over the characters. -/
def pyReplaceSpaceUnderscore (x : String) : String :=
  String.mk (x.data.map (fun c => if c = ' ' then '_' else c))

/-- `MSC_OT_save_preset._sanitize_name` from `msc_presets.py`: strip the raw
name, reject the empty and reserved `Default` names, replace spaces with
underscores, and reject anything that is not an identifier. -/
def _sanitize_name (name_raw : String) : String :=
  let name := pyStrip name_raw
  if name = "" then ""
  else if name = "Default" then ""
  else
    let name2 := pyReplaceSpaceUnderscore name
    if ¬ pyIsIdentifier name2 then "" else name2

/-- `_WHEEL_TYPES` set from `msc_events.py`. -/
def _WHEEL_TYPES : List String :=
  ["WHEELUPMOUSE", "WHEELDOWNMOUSE", "WHEELINMOUSE", "WHEELOUTMOUSE"]

/-- `_MOUSE_BUTTONS` set from `msc_events.py`. -/
def _MOUSE_BUTTONS : List String := ["LEFTMOUSE", "RIGHTMOUSE", "MIDDLEMOUSE"]

/-- `_LR_BUTTONS` set from `msc_events.py`. -/
def _LR_BUTTONS : List String := ["LEFTMOUSE", "RIGHTMOUSE"]

/-- `_LETTER_KEYS` from `msc_events.py`: the single characters `A`..`Z`. -/
def _LETTER_KEYS : List String :=
  (List.range 26).map (fun i => String.singleton (Char.ofNat (65 + i)))

/-- `_TOPROW_NUMS` from `msc_events.py`. -/
def _TOPROW_NUMS : List String :=
  ["ZERO", "ONE", "TWO", "THREE", "FOUR", "FIVE", "SIX", "SEVEN", "EIGHT", "NINE"]

/-- `_IGNORE_UP` from `msc_events.py`: key types whose RELEASE is not shown. -/
def _IGNORE_UP : List String :=
  ((List.range 24).map (fun i => "F" ++ toString (i + 1)))
  ++ ["ESC", "TAB", "RET", "RETURN", "ENTER", "PAGE_UP", "PAGE_DOWN",
      "HOME", "END", "DEL", "DELETE", "BACK_SPACE",
      "UP_ARROW", "DOWN_ARROW", "LEFT_ARROW", "RIGHT_ARROW"]
  ++ ((List.range 10).map (fun i => "NUMPAD_" ++ toString i)) ++ ["NUMPAD_ENTER"]
  ++ _LETTER_KEYS ++ _TOPROW_NUMS

/-- `_MOD_KEYS` from `msc_events.py`: localized modifier names, with the
translator `_` passed explicitly as `tr`. -/
def _MOD_KEYS (tr : String → String) : List (String × String) :=
  [("LEFT_SHIFT", tr "Shift"), ("RIGHT_SHIFT", tr "Shift"),
   ("LEFT_CTRL", tr "Ctrl"), ("RIGHT_CTRL", tr "Ctrl"),
   ("LEFT_ALT", tr "Alt"), ("RIGHT_ALT", tr "Alt"),
   ("OSKEY", tr "Win")]

/-- `_mouse_labels_runtime` from `msc_events.py`: localized click labels,
swapping left and right when `mirror_mouse_lr` is set. -/
def _mouse_labels_runtime (tr : String → String) (s : Settings) : List (String × String) :=
  let left := tr "Left Click"
  let right := tr "Right Click"
  let mid := tr "Middle Click"
  if s.mirror_mouse_lr then
    [("LEFTMOUSE", right), ("RIGHTMOUSE", left), ("MIDDLEMOUSE", mid)]
  else
    [("LEFTMOUSE", left), ("RIGHTMOUSE", right), ("MIDDLEMOUSE", mid)]

/-- The fields of a `bpy.types.Event` read by `_label_from_event`. -/
structure PyEvent where
  type : String
  value : String
  is_repeat : Bool
  ctrl : Bool
  shift : Bool
  alt : Bool
  oskey : Bool
deriving Repr, DecidableEq

/-- Python dict assignment `d[k] = v`: replace in place when the key exists,
append otherwise. -/
def dictInsert (k : String) (v : ℚ) (l : List (String × ℚ)) : List (String × ℚ) :=
  if (l.lookup k).isSome then l.map (fun p => if p.1 = k then (k, v) else p)
  else l ++ [(k, v)]

/-- Python `d.pop(k, None)`: remove the entry with key `k`, if any. -/
def dictRemove (k : String) (l : List (String × ℚ)) : List (String × ℚ) :=
  l.filter (fun p => p.1 ≠ k)

/-- Python `set.add` on a duplicate-free list. -/
def setAdd (x : String) (l : List String) : List String :=
  if x ∈ l then l else l ++ [x]

/-- Python `d.get(k, dflt)` for the runtime label dictionaries. -/
def labelsGet (l : List (String × String)) (k : String) (dflt : String) : String :=
  (l.lookup k).getD dflt

/-- Rewrite the text of the last entry of an event list, leaving everything
else (including the entry's timestamp) unchanged; the empty list stays
empty.  Models `MSCState.events[-1].text = ...` guarded by
`if MSCState.events:`. -/
def updateLastText : List InputEvent → String → List InputEvent
  | [], _ => []
  | [e], txt => [{ e with text := txt }]
  | e :: e2 :: rest, txt => e :: updateLastText (e2 :: rest) txt

/-- `_append_event` from `msc_events.py`. -/
def _append_event (t : String) (now : ℚ) (st : MSCState) : MSCState :=
  { st with events := st.events ++ [⟨t, now⟩] }

/-- `_bump_wheel_active` from `msc_events.py`.  The body calls `_now()`
separately from its caller; the shallow embedding uses one `now` per
host-event callback. -/
def _bump_wheel_active (now : ℚ) (st : MSCState) : MSCState :=
  { st with wheel_active_until := now + max 0.08 (WHEEL_ACTIVE_MS / 1000) }

/-- `_handle_scroll_grouping` from `msc_events.py`: group rapid wheel events
of the same direction within the `max(0.08, SCROLL_GROUP_MS / 1000)` window by
rewriting the last line, otherwise start a fresh group and append one line.
The unused settings argument of the Python function is kept. -/
def _handle_scroll_grouping (tr : String → String) (now : ℚ) (direction : String)
    (_s : Settings) (st : MSCState) : MSCState :=
  let window : ℚ := max 0.08 (SCROLL_GROUP_MS / 1000)
  let st1 := _bump_wheel_active now st
  let base_lbl := if direction = "UP" then tr "Scroll (↑)" else tr "Scroll (↓)"
  if st1.scroll_dir = some direction ∧ now - st1.scroll_last_t ≤ window then
    { st1 with
      scroll_count := st1.scroll_count + 1
      scroll_last_t := now
      events := updateLastText st1.events
        (base_lbl ++ " ×" ++ toString (st1.scroll_count + 1)) }
  else
    _append_event base_lbl now
      { st1 with scroll_dir := some direction, scroll_count := 1, scroll_last_t := now }

/-- Python `str.title()` over a character list, restricted to ASCII letters:
a letter is uppercased after a non-letter and lowercased after a letter. -/
def pyTitleAux : Bool → List Char → List Char
  | _, [] => []
  | prevAlpha, c :: rest =>
    (if c.isAlpha then (if prevAlpha then c.toLower else c.toUpper) else c)
      :: pyTitleAux c.isAlpha rest

/-- Python `str.title()`, restricted to ASCII letters. -/
def pyTitle (x : String) : String := String.mk (pyTitleAux false x.data)

/-- Python `t.replace("_", " ")`: a single-character replacement is a map
over the characters. -/
def pyReplaceUnderscoreSpace (x : String) : String :=
  String.mk (x.data.map (fun c => if c = '_' then ' ' else c))

/-- `_format_key_from_type` from `msc_events.py`.  Python
`t.split('_', 1)[1]` after the `NUMPAD_` check drops the 7-character
prefix; `t[1:].isdigit()` is nonemptiness plus all-digits. -/
def _format_key_from_type (tr : String → String) (t : String) : String :=
  if t.startsWith "NUMPAD_" then tr "Numpad" ++ " " ++ t.drop 7
  else if t.startsWith "F" ∧ t.drop 1 ≠ "" ∧ (t.drop 1).data.all Char.isDigit then t
  else
    let special : List (String × String) :=
      [("SPACE", tr "Space"), ("TAB", tr "Tab"),
       ("ESC", tr "Esc"), ("ESCAPE", tr "Esc"),
       ("RET", tr "Enter"), ("RETURN", tr "Enter"), ("ENTER", tr "Enter"),
       ("UP_ARROW", tr "Up Arrow"), ("DOWN_ARROW", tr "Down Arrow"),
       ("LEFT_ARROW", tr "Left Arrow"), ("RIGHT_ARROW", tr "Right Arrow")]
    match special.lookup t with
    | some v => v
    | none => pyTitle (pyReplaceUnderscoreSpace t)

/-- The final `return` of `_label_from_event`: suppress RELEASE labels for
keys in `_IGNORE_UP`, then join the modifier prefixes with the base label
(Python returns the bare base when it is falsy or there are no prefixes). -/
def finishLabel (v t : String) (mods : List String) (base : Option String)
    (st : MSCState) : Option String × MSCState :=
  if v = "RELEASE" ∧ t ∈ _IGNORE_UP then (none, st)
  else
    match base with
    | none => (none, st)
    | some b =>
      (if b ≠ "" ∧ mods ≠ [] then some (String.intercalate " + " (mods ++ [b]))
       else some b, st)

/-- `_label_from_event` from `msc_events.py`: decide the text line (if any)
for one host event and update the module state (modifier times, wheel
activity, scroll grouping, pressed-button bookkeeping). -/
def _label_from_event (tr : String → String) (now : ℚ) (event : PyEvent)
    (s : Settings) (st : MSCState) : Option String × MSCState :=
  let t := event.type
  let v := event.value
  if t = "TEXTINPUT" ∨ (v ≠ "PRESS" ∧ v ≠ "RELEASE") then (none, st)
  else if event.is_repeat then (none, st)
  else
    match (_MOD_KEYS tr).lookup t with
    | some name =>
      if v = "PRESS" then
        ((if s.show_modifiers then some (name ++ " ↓") else none),
          { st with mod_times := dictInsert name now st.mod_times })
      else
        ((if s.show_modifiers then some (name ++ " ↑") else none),
          { st with mod_times := dictRemove name st.mod_times })
    | none =>
      let mods : List String :=
        if s.show_modifiers then
          (if event.ctrl then [tr "Ctrl"] else [])
            ++ (if event.shift then [tr "Shift"] else [])
            ++ (if event.alt then [tr "Alt"] else [])
            ++ (if event.oskey then [tr "Win"] else [])
        else []
      let labels := _mouse_labels_runtime tr s
      let allow_lr_text : Bool := (! s.show_mouse_glyph) || s.show_mouse
      if t ∈ _WHEEL_TYPES ∧ v = "PRESS" then
        (none, _handle_scroll_grouping tr now
          (if t = "WHEELUPMOUSE" ∨ t = "WHEELINMOUSE" then "UP" else "DOWN") s st)
      else if t = "MIDDLEMOUSE" then
        if v = "PRESS" then
          let st2 := _bump_wheel_active now st
          let st3 := { st2 with
            button_times := dictInsert "MIDDLEMOUSE" now st2.button_times }
          finishLabel v t mods
            (some (labelsGet labels "MIDDLEMOUSE" (tr "Middle Click") ++ " ↓")) st3
        else
          (none, { st with button_times := dictRemove "MIDDLEMOUSE" st.button_times })
      else if t ∈ _LR_BUTTONS then
        let label_lr := labelsGet labels t t
        if st.suppress_buttons_until_mouseup ∧ v = "PRESS" then (none, st)
        else if v = "PRESS" then
          let dup := t ∈ st.buttons_down
          let st2 := { st with
            buttons_down := setAdd t st.buttons_down
            button_times := dictInsert t now st.button_times }
          if allow_lr_text ∧ ¬ dup then finishLabel v t mods (some (label_lr ++ " ↓")) st2
          else (none, st2)
        else
          let st2 := { st with
            buttons_down := st.buttons_down.erase t
            button_times := dictRemove t st.button_times }
          if allow_lr_text then finishLabel v t mods (some (label_lr ++ " ↑")) st2
          else (none, st2)
      else if t ∈ _MOUSE_BUTTONS ∨ t ∈ _WHEEL_TYPES then (none, st)
      else
        finishLabel v t mods
          (if s.show_keys then some (_format_key_from_type tr t) else none) st

/-- A concrete key-repeat PRESS event, used to instantiate witnesses. -/
def repeatEvent : PyEvent :=
  { type := "A", value := "PRESS", is_repeat := true,
    ctrl := false, shift := false, alt := false, oskey := false }

/-- A JSON-serializable preset value, as produced by `_settings_to_dict` in
`msc_presets.py` (bools, ints, floats, strings, and color tuples). -/
inductive PVal where
  | b (x : Bool)
  | i (x : ℤ)
  | f (x : ℚ)
  | s (x : String)
  | c (x : List ℚ)
deriving Repr, DecidableEq

/-- `_settings_to_dict` from `msc_presets.py`: serialize the settings to a
key/value list in the source's insertion order (Python dicts preserve it).
`limit_one_per_screen` is commented out in the source and `active_preset` is
never serialized. -/
def _settings_to_dict (s : Settings) : List (String × PVal) :=
  [("ui_show_advanced", .b s.ui_show_advanced),
   ("show_keys", .b s.show_keys),
   ("show_mouse", .b s.show_mouse),
   ("show_modifiers", .b s.show_modifiers),
   ("history_count", .i s.history_count),
   ("fade_seconds", .f s.fade_seconds),
   ("font_size", .i s.font_size),
   ("text_color", .c [s.text_color.r, s.text_color.g, s.text_color.b, s.text_color.a]),
   ("bg_color", .c [s.bg_color.r, s.bg_color.g, s.bg_color.b, s.bg_color.a]),
   ("bg_opacity", .f s.bg_opacity),
   ("corner_radius", .i s.corner_radius),
   ("show_title", .b s.show_title),
   ("title_text", .s s.title_text),
   ("title_icon_mode", .s s.title_icon_mode),
   ("title_builtin_icon", .s s.title_builtin_icon),
   ("title_icon_path", .s s.title_icon_path),
   ("title_icon_auto", .b s.title_icon_auto),
   ("title_icon_size", .i s.title_icon_size),
   ("title_icon_pad", .i s.title_icon_pad),
   ("title_font_size", .i s.title_font_size),
   ("title_text_color", .c [s.title_text_color.r, s.title_text_color.g,
      s.title_text_color.b, s.title_text_color.a]),
   ("show_idle_hint", .b s.show_idle_hint),
   ("idle_hint_text", .s s.idle_hint_text),
   ("show_transform_axis", .b s.show_transform_axis),
   ("position", .s s.position),
   ("offset_x", .i s.offset_x),
   ("offset_y", .i s.offset_y),
   ("drag_enable", .b s.drag_enable),
   ("drag_requires_shift", .b s.drag_requires_shift),
   ("show_mouse_glyph", .b s.show_mouse_glyph),
   ("mouse_glyph_size", .i s.mouse_glyph_size),
   ("mouse_sidecar_gap", .i s.mouse_sidecar_gap),
   ("mouse_hide_when_idle", .b s.mouse_hide_when_idle),
   ("mirror_mouse_lr", .b s.mirror_mouse_lr),
   ("mouse_use_custom_body", .b s.mouse_use_custom_body),
   ("mouse_body_color", .c [s.mouse_body_color.r, s.mouse_body_color.g,
      s.mouse_body_color.b, s.mouse_body_color.a]),
   ("mouse_outline_shade", .i s.mouse_outline_shade),
   ("mouse_show_tail", .b s.mouse_show_tail)]

/-- Python `max(0.0, min(1.0, float(c)))` for one color component. -/
def clamp01 (q : ℚ) : ℚ := max 0 (min 1 q)

/-- `_clamp_color_tuple` from `msc_presets.py`: clamp each component of a
color tuple into `[0, 1]`; any non-iterable value raises inside the `try`
and is returned unchanged. -/
def _clamp_color_tuple : PVal → PVal
  | .c xs => .c (xs.map clamp01)
  | v => v

/-- Python `setattr(s, k, v)` guarded by `hasattr` and `try`: matching key and
value type set the field (a color needs exactly four components, as the RNA
vector does); anything else raises or misses and leaves the settings
unchanged.  Host-side RNA range clamping on assignment is outside the model;
the round-trip theorem assumes in-range values, under which it is the
identity. -/
def setField (s : Settings) (k : String) (v : PVal) : Settings :=
  if k = "ui_show_advanced" then
    (match v with | .b x => { s with ui_show_advanced := x } | _ => s)
  else if k = "show_keys" then
    (match v with | .b x => { s with show_keys := x } | _ => s)
  else if k = "show_mouse" then
    (match v with | .b x => { s with show_mouse := x } | _ => s)
  else if k = "show_modifiers" then
    (match v with | .b x => { s with show_modifiers := x } | _ => s)
  else if k = "history_count" then
    (match v with | .i x => { s with history_count := x } | _ => s)
  else if k = "fade_seconds" then
    (match v with | .f x => { s with fade_seconds := x } | _ => s)
  else if k = "font_size" then
    (match v with | .i x => { s with font_size := x } | _ => s)
  else if k = "text_color" then
    (match v with | .c [r, g, b, a] => { s with text_color := ⟨r, g, b, a⟩ } | _ => s)
  else if k = "bg_color" then
    (match v with | .c [r, g, b, a] => { s with bg_color := ⟨r, g, b, a⟩ } | _ => s)
  else if k = "bg_opacity" then
    (match v with | .f x => { s with bg_opacity := x } | _ => s)
  else if k = "corner_radius" then
    (match v with | .i x => { s with corner_radius := x } | _ => s)
  else if k = "show_title" then
    (match v with | .b x => { s with show_title := x } | _ => s)
  else if k = "title_text" then
    (match v with | .s x => { s with title_text := x } | _ => s)
  else if k = "title_icon_mode" then
    (match v with | .s x => { s with title_icon_mode := x } | _ => s)
  else if k = "title_builtin_icon" then
    (match v with | .s x => { s with title_builtin_icon := x } | _ => s)
  else if k = "title_icon_path" then
    (match v with | .s x => { s with title_icon_path := x } | _ => s)
  else if k = "title_icon_auto" then
    (match v with | .b x => { s with title_icon_auto := x } | _ => s)
  else if k = "title_icon_size" then
    (match v with | .i x => { s with title_icon_size := x } | _ => s)
  else if k = "title_icon_pad" then
    (match v with | .i x => { s with title_icon_pad := x } | _ => s)
  else if k = "title_font_size" then
    (match v with | .i x => { s with title_font_size := x } | _ => s)
  else if k = "title_text_color" then
    (match v with | .c [r, g, b, a] => { s with title_text_color := ⟨r, g, b, a⟩ } | _ => s)
  else if k = "show_idle_hint" then
    (match v with | .b x => { s with show_idle_hint := x } | _ => s)
  else if k = "idle_hint_text" then
    (match v with | .s x => { s with idle_hint_text := x } | _ => s)
  else if k = "show_transform_axis" then
    (match v with | .b x => { s with show_transform_axis := x } | _ => s)
  else if k = "position" then
    (match v with | .s x => { s with position := x } | _ => s)
  else if k = "offset_x" then
    (match v with | .i x => { s with offset_x := x } | _ => s)
  else if k = "offset_y" then
    (match v with | .i x => { s with offset_y := x } | _ => s)
  else if k = "drag_enable" then
    (match v with | .b x => { s with drag_enable := x } | _ => s)
  else if k = "drag_requires_shift" then
    (match v with | .b x => { s with drag_requires_shift := x } | _ => s)
  else if k = "show_mouse_glyph" then
    (match v with | .b x => { s with show_mouse_glyph := x } | _ => s)
  else if k = "mouse_glyph_size" then
    (match v with | .i x => { s with mouse_glyph_size := x } | _ => s)
  else if k = "mouse_sidecar_gap" then
    (match v with | .i x => { s with mouse_sidecar_gap := x } | _ => s)
  else if k = "mouse_hide_when_idle" then
    (match v with | .b x => { s with mouse_hide_when_idle := x } | _ => s)
  else if k = "mirror_mouse_lr" then
    (match v with | .b x => { s with mirror_mouse_lr := x } | _ => s)
  else if k = "mouse_use_custom_body" then
    (match v with | .b x => { s with mouse_use_custom_body := x } | _ => s)
  else if k = "mouse_body_color" then
    (match v with | .c [r, g, b, a] => { s with mouse_body_color := ⟨r, g, b, a⟩ } | _ => s)
  else if k = "mouse_outline_shade" then
    (match v with | .i x => { s with mouse_outline_shade := x } | _ => s)
  else if k = "mouse_show_tail" then
    (match v with | .b x => { s with mouse_show_tail := x } | _ => s)
  else s

/-- `_apply_settings_from_dict` from `msc_presets.py`: iterate the preset
dict in order, clamp the four color keys defensively, and set each attribute
that exists (bad or outdated fields are ignored quietly). -/
def _apply_settings_from_dict (s : Settings) (data : List (String × PVal)) : Settings :=
  data.foldl (fun acc kv =>
    let v := if kv.1 ∈ ["bg_color", "text_color", "title_text_color", "mouse_body_color"]
      then _clamp_color_tuple kv.2 else kv.2
    setField acc kv.1 v) s

/-- All four components of a color lie in `[0, 1]` (what the RNA
`min=0.0, max=1.0` bounds guarantee for stored settings). -/
def colorInRange (c : Color4) : Prop :=
  0 ≤ c.r ∧ c.r ≤ 1 ∧ 0 ≤ c.g ∧ c.g ≤ 1 ∧ 0 ≤ c.b ∧ c.b ≤ 1 ∧ 0 ≤ c.a ∧ c.a ≤ 1

instance (c : Color4) : Decidable (colorInRange c) := by
  unfold colorInRange
  infer_instance

/-- A second concrete settings value, distinct from `defaultSettings`, used to
instantiate witnesses. -/
def presetB : Settings :=
  { defaultSettings with
    active_preset := "Studio", limit_one_per_screen := false,
    font_size := 20, position := "TOP_RIGHT", text_color := ⟨0, 0, 0, 1⟩ }

/-- C4: for any region at least 20 pixels larger than the box in each
dimension, `_resolve_position` returns coordinates that keep the whole box
inside the region with a 10-pixel margin, whatever the position enum value and
the (arbitrary integer) offsets stored in the settings. -/
theorem resolve_position_in_bounds (rw rh bw bh : ℤ) (s : Settings)
    (hw : bw ≤ rw - 20) (hh : bh ≤ rh - 20) :
    10 ≤ (_resolve_position rw rh bw bh s).1 ∧
      (_resolve_position rw rh bw bh s).1 ≤ rw - bw - 10 ∧
      10 ≤ (_resolve_position rw rh bw bh s).2 ∧
      (_resolve_position rw rh bw bh s).2 ≤ rh - bh - 10 := by
  refine ⟨le_max_left _ _, max_le (by linarith) (min_le_left _ _),
    le_max_left _ _, max_le (by linarith) (min_le_left _ _)⟩

/-- Witness for C4 at a concrete region, box and the default settings. -/
theorem resolve_position_in_bounds_witness :
    bw0 ≤ 200 - 20 ∧ bh0 ≤ 120 - 20 ∧
      (10 ≤ (_resolve_position 200 120 bw0 bh0 defaultSettings).1 ∧
        (_resolve_position 200 120 bw0 bh0 defaultSettings).1 ≤ 200 - bw0 - 10 ∧
        10 ≤ (_resolve_position 200 120 bw0 bh0 defaultSettings).2 ∧
        (_resolve_position 200 120 bw0 bh0 defaultSettings).2 ≤ 120 - bh0 - 10) :=
  ⟨by decide, by decide,
    resolve_position_in_bounds 200 120 bw0 bh0 defaultSettings (by decide) (by decide)⟩

/-- Helper: with duplicate-free keys, membership of a pair determines the
result of `List.lookup`. -/
theorem lookup_eq_of_mem_of_nodup {l : List (String × ℚ)} {a : String} {b : ℚ}
    (hnd : (l.map Prod.fst).Nodup) (hmem : (a, b) ∈ l) : l.lookup a = some b := by
  induction l with
  | nil => cases hmem
  | cons p t ih =>
    obtain ⟨x, y⟩ := p
    simp only [List.map_cons, List.nodup_cons] at hnd
    rcases List.mem_cons.mp hmem with h | h
    · obtain ⟨hx, hy⟩ := Prod.mk.injEq .. ▸ h
      subst hx; subst hy
      simp [List.lookup]
    · have hax : a ≠ x := by
        rintro rfl
        exact hnd.1 (List.mem_map.mpr ⟨(a, b), h, rfl⟩)
      have hbeq : (a == x) = false := beq_eq_false_iff_ne.mpr hax
      simp only [List.lookup, hbeq]
      exact ih hnd.2 h

/-- Helper: with duplicate-free keys, values are determined by their key. -/
theorem value_eq_of_mem_of_nodup {l : List (String × ℚ)} {a : String} {b c : ℚ}
    (hnd : (l.map Prod.fst).Nodup) (hb : (a, b) ∈ l) (hc : (a, c) ∈ l) : b = c := by
  have h1 := lookup_eq_of_mem_of_nodup hnd hb
  have h2 := lookup_eq_of_mem_of_nodup hnd hc
  rw [h1] at h2
  exact Option.some.inj h2

/-- C2: on every modal pass (state running), the watchdog removes every mouse
button pressed more than `STUCK_TIMEOUT = 0.6` seconds ago from both
`button_times` and `buttons_down`; afterwards every remaining `button_times`
entry was pressed at most 0.6 seconds ago. -/
theorem modal_watchdog_spec (now : ℚ) (st : MSCState)
    (hnd : (st.button_times.map Prod.fst).Nodup) :
    (∀ b t, (b, t) ∈ st.button_times → now - t > MSCState.STUCK_TIMEOUT →
      b ∉ (modal_watchdog now st).buttons_down ∧
        ∀ t', (b, t') ∉ (modal_watchdog now st).button_times) ∧
    ∀ p ∈ (modal_watchdog now st).button_times, now - p.2 ≤ MSCState.STUCK_TIMEOUT := by
  constructor
  · intro b t hmem hstale
    constructor
    · intro hb
      have := (List.mem_filter.mp hb).2
      rw [staleButton, lookup_eq_of_mem_of_nodup hnd hmem] at this
      simp [hstale] at this
    · intro t' ht'
      have h1 := (List.mem_filter.mp ht').1
      have h2 := (List.mem_filter.mp ht').2
      have : t' = t := value_eq_of_mem_of_nodup hnd h1 hmem
      subst this
      simp [hstale] at h2
  · intro p hp
    have := (List.mem_filter.mp hp).2
    simpa [not_lt] using this

/-- Witness for C2 at a concrete state where `LEFTMOUSE` was pressed 1 second
ago and `RIGHTMOUSE` pressed at the current instant. -/
theorem modal_watchdog_witness :
    ("LEFTMOUSE", (0 : ℚ)) ∈ runningState.button_times ∧
      (1 : ℚ) - 0 > MSCState.STUCK_TIMEOUT ∧
      "LEFTMOUSE" ∉ (modal_watchdog 1 runningState).buttons_down :=
  ⟨by decide, by norm_num [MSCState.STUCK_TIMEOUT],
    ((modal_watchdog_spec 1 runningState (by decide)).1 "LEFTMOUSE" 0
      (by decide) (by norm_num [MSCState.STUCK_TIMEOUT])).1⟩

/-- C7: when the toggle operator runs on a running state it stops the overlay
and resets the module state (handler removed and set to `none`, events,
buttons, transform, wheel, scroll and active-area fields cleared); on a
stopped state it sets `running`, clears `active_area`, and installs the draw
handler only when none is installed (an existing handler is kept). -/
theorem toggle_execute_spec (newHandle : ℕ) (st : MSCState) :
    (st.running = true →
      toggle_execute newHandle st =
        { st with
          running := false, handler := none, events := [],
          transform_active := false, transform_kind := none, transform_axis := none,
          buttons_down := [], button_times := [],
          wheel_active_until := 0, scroll_dir := none, scroll_count := 0,
          scroll_last_t := 0, active_area := none }) ∧
    (st.running = false →
      (toggle_execute newHandle st).running = true ∧
      (toggle_execute newHandle st).active_area = none ∧
      (toggle_execute newHandle st).handler ≠ none ∧
      (st.handler ≠ none → (toggle_execute newHandle st).handler = st.handler)) := by
  constructor
  · intro h
    simp [toggle_execute, h]
  · intro h
    cases hh : st.handler with
    | none => simp [toggle_execute, h, hh]
    | some v => simp [toggle_execute, h, hh]

/-- Witness for C7: stopping a concrete running state and starting a concrete
stopped one. -/
theorem toggle_execute_witness :
    runningState.running = true ∧
      toggle_execute 7 runningState =
        { runningState with
          running := false, handler := none, events := [],
          transform_active := false, transform_kind := none, transform_axis := none,
          buttons_down := [], button_times := [],
          wheel_active_until := 0, scroll_dir := none, scroll_count := 0,
          scroll_last_t := 0, active_area := none } ∧
      stoppedState.running = false ∧
      (toggle_execute 7 stoppedState).running = true :=
  ⟨rfl, (toggle_execute_spec 7 runningState).1 rfl, rfl,
    ((toggle_execute_spec 7 stoppedState).2 rfl).1⟩

/-- C8: on every draw callback, after the language-change check the recorded
locale equals the active locale, and whenever the active locale differed from
the recorded one the whole event history has been cleared. -/
theorem draw_locale_spec (ov bl : Option String) (st : MSCState) :
    (draw_locale_check (_active_locale ov bl) st).current_locale = _active_locale ov bl ∧
      (st.current_locale ≠ _active_locale ov bl →
        (draw_locale_check (_active_locale ov bl) st).events = []) := by
  by_cases h : st.current_locale = _active_locale ov bl
  · constructor
    · simp [draw_locale_check, h]
    · intro hne; exact absurd h hne
  · constructor
    · simp [draw_locale_check, h]
    · intro _; simp [draw_locale_check, h]

/-- Witness for C8: a state recorded under `en_US` observing a `zh_CN`
override. -/
theorem draw_locale_witness :
    runningState.current_locale ≠ _active_locale (some "zh_CN") none ∧
      (draw_locale_check (_active_locale (some "zh_CN") none) runningState).events = [] :=
  ⟨by decide,
    (draw_locale_spec (some "zh_CN") none runningState).2 (by decide)⟩

/-- C10: along any modal trace, the times at which the throttle actually tags
a redraw form a chain in which consecutive redraws (including the first one
after the initial recorded timestamp) are at least
`_REDRAW_MIN_INTERVAL = 0.05` seconds apart. -/
theorem redraw_throttle_spec (last_ts : ℚ) (calls : List ℚ) :
    List.Chain (fun a b => _REDRAW_MIN_INTERVAL ≤ b - a) last_ts
      (redraw_tag_times last_ts calls) := by
  induction calls generalizing last_ts with
  | nil => exact List.Chain.nil
  | cons now2 rest ih =>
    by_cases h : _REDRAW_MIN_INTERVAL ≤ now2 - last_ts
    · simp only [redraw_tag_times, _redraw_step, if_pos h]
      exact List.Chain.cons h (ih now2)
    · simp only [redraw_tag_times, _redraw_step, if_neg h]
      exact ih last_ts

/-- Helper: for a negative start index `-n` with `1 ≤ n`, the Python slice
`l[-n:]` is `drop (length - n)`. -/
theorem pySliceFrom_neg {α : Type} (n : ℤ) (hn : 1 ≤ n) (l : List α) :
    pySliceFrom (-n) l = l.drop (l.length - n.toNat) := by
  have h1 : -n < 0 := by omega
  simp [pySliceFrom, h1]

/-- C3: `gather_lines` prunes every event older than `fade_seconds` from
`MSCState.events`, every event it keeps is at most `fade_seconds` old, and in
the non-idle case the returned lines are the texts of the last (at most)
`history_count` surviving events. -/
theorem gather_lines_spec (now : ℚ) (s : Settings) (events : List InputEvent)
    (h : 1 ≤ s.history_count) (E : List InputEvent) (lines : List String) (idle : Bool)
    (heq : gather_lines now s events = (E, lines, idle)) :
    E = events.filter (fun ev => decide (now - ev.t0 ≤ s.fade_seconds)) ∧
    (∀ ev ∈ E, now - ev.t0 ≤ s.fade_seconds) ∧
    (idle = false →
      lines = (E.drop (E.length - s.history_count.toNat)).map InputEvent.text ∧
      (lines.length : ℤ) ≤ s.history_count) := by
  have hmem : ∀ ev ∈ events.filter (fun ev => decide (now - ev.t0 ≤ s.fade_seconds)),
      now - ev.t0 ≤ s.fade_seconds := by
    intro ev hev
    simpa using (List.mem_filter.mp hev).2
  simp only [gather_lines, pySliceFrom_neg s.history_count h] at heq
  split at heq
  · obtain ⟨rfl, rfl, rfl⟩ := Prod.mk.injEq .. ▸ heq
    exact ⟨rfl, hmem, by simp⟩
  · obtain ⟨rfl, rfl, rfl⟩ := Prod.mk.injEq .. ▸ heq
    refine ⟨rfl, hmem, fun _ => ⟨rfl, ?_⟩⟩
    have hn : s.history_count.toNat = s.history_count := Int.toNat_of_nonneg (by omega)
    simp only [List.length_map, List.length_drop]
    omega

/-- Witness for C3: at the default settings, three lines of which two are
stale, evaluated five seconds after the first line. -/
theorem gather_lines_witness :
    (1 : ℤ) ≤ defaultSettings.history_count ∧
      ([⟨"C", 5⟩] : List InputEvent) =
        eventsW.filter (fun ev => decide (5 - ev.t0 ≤ defaultSettings.fade_seconds)) ∧
      (["C"] : List String) =
        (([⟨"C", 5⟩] : List InputEvent).drop
          (([⟨"C", 5⟩] : List InputEvent).length - defaultSettings.history_count.toNat)).map
          InputEvent.text :=
  ⟨by decide,
    (gather_lines_spec 5 defaultSettings eventsW (by decide) [⟨"C", 5⟩] ["C"] false
      (by norm_num [gather_lines, eventsW, defaultSettings, pySliceFrom])).1,
    ((gather_lines_spec 5 defaultSettings eventsW (by decide) [⟨"C", 5⟩] ["C"] false
      (by norm_num [gather_lines, eventsW, defaultSettings, pySliceFrom])).2.2 rfl).1⟩

/-- Helper: mapping spaces to underscores cannot produce a string that
contains no underscore unless nothing was replaced. -/
theorem map_underscore_eq {l targ : List Char} (ht : '_' ∉ targ)
    (heq : l.map (fun c => if c = ' ' then '_' else c) = targ) : l = targ := by
  induction l generalizing targ with
  | nil => simpa using heq
  | cons a t ih =>
    cases targ with
    | nil => simp at heq
    | cons b bt =>
      simp only [List.map_cons, List.cons.injEq] at heq
      obtain ⟨hab, ht'⟩ := heq
      have hb : b ≠ '_' := fun hh => ht (hh ▸ List.mem_cons_self b bt)
      have ha : a = b := by
        by_cases hsp : a = ' '
        · rw [hsp] at hab
          simp only [if_pos rfl] at hab
          exact absurd hab.symm hb
        · simpa [hsp] using hab
      have hbt : '_' ∉ bt := fun hh => ht (List.mem_cons_of_mem _ hh)
      rw [ha, ih hbt ht']

/-- Helper: `pyReplaceSpaceUnderscore` only returns `"Default"` on the exact
input `"Default"`. -/
theorem replace_eq_default {x : String}
    (heq : pyReplaceSpaceUnderscore x = "Default") : x = "Default" := by
  have hdata : x.data.map (fun c => if c = ' ' then '_' else c) = "Default".data := by
    have := congrArg String.data heq
    simpa [pyReplaceSpaceUnderscore] using this
  have hu : '_' ∉ "Default".data := by decide
  have := map_underscore_eq hu hdata
  cases x
  simpa using congrArg String.mk this

/-- C9: whenever `_sanitize_name` returns a non-empty string, that string is
a valid (ASCII) Python identifier, is different from the reserved name
`Default`, and consists only of letters, digits and underscores — so no
saved preset name can contain spaces, punctuation or path separators, nor
overwrite the built-in Default preset. -/
theorem sanitize_name_spec (name_raw : String) (h : _sanitize_name name_raw ≠ "") :
    _sanitize_name name_raw ≠ "Default" ∧
      pyIsIdentifier (_sanitize_name name_raw) = true ∧
      ∀ c ∈ (_sanitize_name name_raw).data, c.isAlphanum = true ∨ c = '_' := by
  by_cases h1 : pyStrip name_raw = ""
  · exact absurd (by simp [_sanitize_name, h1]) h
  by_cases h2 : pyStrip name_raw = "Default"
  · exact absurd (by simp [_sanitize_name, h1, h2]) h
  by_cases h3 : pyIsIdentifier (pyReplaceSpaceUnderscore (pyStrip name_raw)) = true
  · have hres : _sanitize_name name_raw = pyReplaceSpaceUnderscore (pyStrip name_raw) := by
      simp [_sanitize_name, h1, h2, h3]
    refine ⟨?_, ?_, ?_⟩
    · rw [hres]
      intro hd
      exact h2 (replace_eq_default hd)
    · rw [hres]; exact h3
    · rw [hres]
      intro d hd
      have hid : pyIsIdentifierL (pyReplaceSpaceUnderscore (pyStrip name_raw)).data = true := h3
      cases hx : (pyReplaceSpaceUnderscore (pyStrip name_raw)).data with
      | nil =>
        rw [hx] at hd
        cases hd
      | cons c rest =>
        rw [hx] at hid hd
        rw [pyIsIdentifierL, Bool.and_eq_true] at hid
        rcases List.mem_cons.mp hd with rfl | hd2
        · have := hid.1
          rw [pyIsIdentStart, Bool.or_eq_true] at this
          rcases this with ha | ha
          · left
            rw [Char.isAlphanum, ha, Bool.true_or]
          · right
            exact of_decide_eq_true ha
        · have := List.all_eq_true.mp hid.2 d hd2
          rw [pyIsIdentContinue, Bool.or_eq_true] at this
          rcases this with ha | ha
          · left; exact ha
          · right; exact of_decide_eq_true ha
  · exact absurd (by simp [_sanitize_name, h1, h2, h3]) h

/-- Witness for C9 at the concrete raw name `"My Preset"` (sanitized to
`"My_Preset"`). -/
theorem sanitize_name_witness :
    _sanitize_name "My Preset" ≠ "" ∧
      (_sanitize_name "My Preset" ≠ "Default" ∧
        pyIsIdentifier (_sanitize_name "My Preset") = true ∧
        ∀ c ∈ (_sanitize_name "My Preset").data, c.isAlphanum = true ∨ c = '_') :=
  ⟨by decide, sanitize_name_spec "My Preset" (by decide)⟩

/-- Helper: rewriting the last text preserves the number of entries. -/
theorem updateLastText_length (l : List InputEvent) (txt : String) :
    (updateLastText l txt).length = l.length := by
  induction l with
  | nil => rfl
  | cons e rest ih =>
    cases rest with
    | nil => rfl
    | cons e2 rest2 => simpa [updateLastText] using ih

/-- Helper: rewriting the last text preserves every timestamp. -/
theorem updateLastText_map_t0 (l : List InputEvent) (txt : String) :
    (updateLastText l txt).map InputEvent.t0 = l.map InputEvent.t0 := by
  induction l with
  | nil => rfl
  | cons e rest ih =>
    cases rest with
    | nil => rfl
    | cons e2 rest2 => simpa [updateLastText] using ih

/-- Helper: after rewriting, the last text is the new text (nonempty lists). -/
theorem updateLastText_getLast (l : List InputEvent) (txt : String) (h : l ≠ []) :
    ((updateLastText l txt).map InputEvent.text).getLast? = some txt := by
  induction l with
  | nil => exact absurd rfl h
  | cons e rest ih =>
    cases rest with
    | nil => rfl
    | cons e2 rest2 =>
      have : ((updateLastText (e2 :: rest2) txt).map InputEvent.text).getLast? = some txt :=
        ih (by simp)
      have hne : (updateLastText (e2 :: rest2) txt).map InputEvent.text ≠ [] := by
        intro hh
        rw [hh] at this
        simp at this
      rw [updateLastText]
      simp only [List.map_cons]
      obtain ⟨y, ys, hys⟩ := List.exists_cons_of_ne_nil hne
      rw [hys, List.getLast?_cons_cons, ← hys]
      exact this

/-- C1: a wheel PRESS in the same direction as the previous scroll and within
`max(0.08, SCROLL_GROUP_MS/1000) = 0.08` seconds of it increments
`scroll_count`, sets `scroll_last_t` to the current time and rewrites the last
event text to the direction's scroll label suffixed with the multiplier,
appending nothing (lengths and timestamps are unchanged); otherwise the
direction is recorded, the count resets to 1, and exactly one new event with
the direction's scroll label is appended. -/
theorem handle_scroll_grouping_spec (tr : String → String) (now : ℚ) (direction : String)
    (s : Settings) (st : MSCState) :
    (st.scroll_dir = some direction ∧
        now - st.scroll_last_t ≤ max 0.08 (SCROLL_GROUP_MS / 1000) →
      (_handle_scroll_grouping tr now direction s st).scroll_count = st.scroll_count + 1 ∧
      (_handle_scroll_grouping tr now direction s st).scroll_last_t = now ∧
      (_handle_scroll_grouping tr now direction s st).events.length = st.events.length ∧
      (_handle_scroll_grouping tr now direction s st).events.map InputEvent.t0 =
        st.events.map InputEvent.t0 ∧
      (st.events ≠ [] →
        ((_handle_scroll_grouping tr now direction s st).events.map InputEvent.text).getLast? =
          some ((if direction = "UP" then tr "Scroll (↑)" else tr "Scroll (↓)") ++ " ×" ++
            toString (st.scroll_count + 1)))) ∧
    (¬ (st.scroll_dir = some direction ∧
        now - st.scroll_last_t ≤ max 0.08 (SCROLL_GROUP_MS / 1000)) →
      (_handle_scroll_grouping tr now direction s st).scroll_dir = some direction ∧
      (_handle_scroll_grouping tr now direction s st).scroll_count = 1 ∧
      (_handle_scroll_grouping tr now direction s st).scroll_last_t = now ∧
      (_handle_scroll_grouping tr now direction s st).events =
        st.events ++ [⟨if direction = "UP" then tr "Scroll (↑)" else tr "Scroll (↓)", now⟩]) := by
  constructor
  · intro hcond
    have hif : _handle_scroll_grouping tr now direction s st =
        { _bump_wheel_active now st with
          scroll_count := st.scroll_count + 1
          scroll_last_t := now
          events := updateLastText st.events
            ((if direction = "UP" then tr "Scroll (↑)" else tr "Scroll (↓)") ++ " ×" ++
              toString (st.scroll_count + 1)) } := by
      simp only [_handle_scroll_grouping, _bump_wheel_active]
      rw [if_pos hcond]
    rw [hif]
    exact ⟨rfl, rfl, updateLastText_length _ _, updateLastText_map_t0 _ _,
      fun hne => updateLastText_getLast _ _ hne⟩
  · intro hcond
    have hif : _handle_scroll_grouping tr now direction s st =
        _append_event (if direction = "UP" then tr "Scroll (↑)" else tr "Scroll (↓)") now
          { _bump_wheel_active now st with
            scroll_dir := some direction, scroll_count := 1, scroll_last_t := now } := by
      simp only [_handle_scroll_grouping, _bump_wheel_active]
      rw [if_neg hcond]
    rw [hif]
    exact ⟨rfl, rfl, rfl, rfl⟩

/-- Witness for C1: a grouped scroll on a concrete state already scrolling
UP, 0 seconds after the previous wheel event. -/
theorem handle_scroll_grouping_witness :
    runningState.scroll_dir = some "UP" ∧
      (_handle_scroll_grouping (fun x => x) 0 "UP" defaultSettings runningState).scroll_count =
        runningState.scroll_count + 1 ∧
      (_handle_scroll_grouping (fun x => x) 0 "UP" defaultSettings runningState).events.length =
        runningState.events.length :=
  ⟨rfl,
    ((handle_scroll_grouping_spec (fun x => x) 0 "UP" defaultSettings runningState).1
      ⟨rfl, by norm_num [SCROLL_GROUP_MS, runningState]⟩).1,
    ((handle_scroll_grouping_spec (fun x => x) 0 "UP" defaultSettings runningState).1
      ⟨rfl, by norm_num [SCROLL_GROUP_MS, runningState]⟩).2.2.1⟩

/-- C6: `_label_from_event` returns no text line for events whose value is
neither PRESS nor RELEASE, for TEXTINPUT events, and for key repeats. -/
theorem label_from_event_none (tr : String → String) (now : ℚ) (event : PyEvent)
    (s : Settings) (st : MSCState)
    (h : event.type = "TEXTINPUT" ∨
      (event.value ≠ "PRESS" ∧ event.value ≠ "RELEASE") ∨ event.is_repeat = true) :
    (_label_from_event tr now event s st).1 = none := by
  rcases h with h | h | h
  · unfold _label_from_event
    rw [if_pos (Or.inl h)]
  · unfold _label_from_event
    rw [if_pos (Or.inr ⟨h.1, h.2⟩)]
  · unfold _label_from_event
    by_cases hc : event.type = "TEXTINPUT" ∨ (event.value ≠ "PRESS" ∧ event.value ≠ "RELEASE")
    · rw [if_pos hc]
    · rw [if_neg hc]
      simp only [h, if_true]

/-- Witness for C6 at a concrete key-repeat event. -/
theorem label_from_event_none_witness :
    repeatEvent.is_repeat = true ∧
      (_label_from_event (fun x => x) 0 repeatEvent defaultSettings runningState).1 = none :=
  ⟨rfl, label_from_event_none (fun x => x) 0 repeatEvent defaultSettings runningState
    (Or.inr (Or.inr rfl))⟩

/-- Helper: clamping is the identity on components already in `[0, 1]`. -/
theorem clamp01_eq_self {q : ℚ} (h0 : 0 ≤ q) (h1 : q ≤ 1) : clamp01 q = q := by
  rw [clamp01, min_eq_right h1, max_eq_right h0]

set_option maxHeartbeats 1000000 in
/-- Helper: applying a serialized settings dict rewrites exactly the
serialized fields, with the four color fields passing through the defensive
clamp; the two unserialized fields keep the target's values. -/
theorem apply_to_dict_eq (s s2 : Settings) :
    _apply_settings_from_dict s2 (_settings_to_dict s) =
      { s with
        text_color := ⟨clamp01 s.text_color.r, clamp01 s.text_color.g,
          clamp01 s.text_color.b, clamp01 s.text_color.a⟩
        bg_color := ⟨clamp01 s.bg_color.r, clamp01 s.bg_color.g,
          clamp01 s.bg_color.b, clamp01 s.bg_color.a⟩
        title_text_color := ⟨clamp01 s.title_text_color.r, clamp01 s.title_text_color.g,
          clamp01 s.title_text_color.b, clamp01 s.title_text_color.a⟩
        mouse_body_color := ⟨clamp01 s.mouse_body_color.r, clamp01 s.mouse_body_color.g,
          clamp01 s.mouse_body_color.b, clamp01 s.mouse_body_color.a⟩
        limit_one_per_screen := s2.limit_one_per_screen
        active_preset := s2.active_preset } := by
  simp [_apply_settings_from_dict, _settings_to_dict, setField, _clamp_color_tuple]

/-- C5: saving then loading a preset is a round trip.  For settings whose
color fields are in range (as the RNA bounds guarantee), applying
`_settings_to_dict s` to any settings object restores every serialized field
to its value on `s` — the clamp passes in-range colors unchanged — while the
unserialized `limit_one_per_screen` and `active_preset` keep the target's
values. -/
theorem preset_round_trip (s s2 : Settings)
    (h1 : colorInRange s.text_color) (h2 : colorInRange s.bg_color)
    (h3 : colorInRange s.title_text_color) (h4 : colorInRange s.mouse_body_color) :
    _apply_settings_from_dict s2 (_settings_to_dict s) =
      { s with
        limit_one_per_screen := s2.limit_one_per_screen
        active_preset := s2.active_preset } := by
  obtain ⟨a1, a2, a3, a4, a5, a6, a7, a8⟩ := h1
  obtain ⟨b1, b2, b3, b4, b5, b6, b7, b8⟩ := h2
  obtain ⟨c1, c2, c3, c4, c5, c6, c7, c8⟩ := h3
  obtain ⟨d1, d2, d3, d4, d5, d6, d7, d8⟩ := h4
  rw [apply_to_dict_eq, clamp01_eq_self a1 a2, clamp01_eq_self a3 a4,
    clamp01_eq_self a5 a6, clamp01_eq_self a7 a8,
    clamp01_eq_self b1 b2, clamp01_eq_self b3 b4,
    clamp01_eq_self b5 b6, clamp01_eq_self b7 b8,
    clamp01_eq_self c1 c2, clamp01_eq_self c3 c4,
    clamp01_eq_self c5 c6, clamp01_eq_self c7 c8,
    clamp01_eq_self d1 d2, clamp01_eq_self d3 d4,
    clamp01_eq_self d5 d6, clamp01_eq_self d7 d8]

/-- Witness for C5: the default settings round-trip into a differing target
settings object. -/
theorem preset_round_trip_witness :
    colorInRange defaultSettings.text_color ∧
      _apply_settings_from_dict presetB (_settings_to_dict defaultSettings) =
        { defaultSettings with
          limit_one_per_screen := presetB.limit_one_per_screen
          active_preset := presetB.active_preset } :=
  ⟨by norm_num [colorInRange, defaultSettings],
    preset_round_trip defaultSettings presetB
      (by norm_num [colorInRange, defaultSettings])
      (by norm_num [colorInRange, defaultSettings])
      (by norm_num [colorInRange, defaultSettings])
      (by norm_num [colorInRange, defaultSettings])⟩
